import Mathlib

/-!
Verification development for `neonwire` (`src/main.go`), a two-party UDP
chat TUI. We shallowly embed the core logic: the `msgPacket` JSON codec,
the transcript line formatting, the `model` state and its `Update` state
machine, `initialModel` startup, and the exit-code logic of `main`.

Modelling conventions:
- Bytes on the wire are abstracted as a JSON value tree (`Json`) or an
  unparseable blob (`Wire.broken`), since `encoding/json` is the only
  producer/consumer of datagram payloads in the program.
- `time.Time` instants are abstracted as seconds (a `Nat`); the display
  layout string `15:04:05` of Go is embedded as `formatTime`.
- lipgloss styles only wrap a string (ANSI colour codes around content);
  they are abstracted as `String -> String` functions in a `Styles`
  record, with `plainStyles` (identity) exposing the raw content.
- The bubbletea driver (`tea.Program.Run`) is an external library, not
  part of this repository; where a claim depends on its event-delivery
  contract we model it from the spec (see `runProgram`).
-/

namespace Neonwire

/-- Fixed UDP port, `const port = 9999` in `main.go`. -/
def port : Nat := 9999

/-- A JSON value, the abstraction of what `encoding/json` reads/writes.
Only the shapes the program can produce or meet matter: strings, numbers
and objects. -/
inductive Json where
  | str (s : String)
  | num (n : Nat)
  | obj (fields : List (String × Json))

/-- A datagram payload: either bytes that parse as a JSON value, or bytes
that do not parse at all (`Wire.broken`), on which `json.Unmarshal`
reports an error. -/
inductive Wire where
  | wellFormed (j : Json)
  | broken (raw : String)

/-- The `msgPacket` struct of `main.go`: sender, text and a timestamp
(abstracted to seconds). JSON keys come from the struct tags
`sender`, `text`, `timestamp`. -/
structure msgPacket where
  sender : String
  text : String
  timestamp : Nat
deriving DecidableEq, Repr

/-- JSON encoding of a `msgPacket`, as `json.Marshal` lays out the three
tagged fields. -/
def encodeMsgPacket (p : msgPacket) : Json :=
  .obj [("sender", .str p.sender), ("text", .str p.text), ("timestamp", .num p.timestamp)]

/-- `json.Marshal` of a `msgPacket`: always well-formed bytes. -/
def jsonMarshalPacket (p : msgPacket) : Wire :=
  .wellFormed (encodeMsgPacket p)

/-- One step of `json.Unmarshal` into a `msgPacket` struct: a known key
with a value of the right JSON type sets the field, a known key with a
wrongly-typed value is an error, an unknown key is ignored and a missing
key leaves the Go zero value in place. -/
def setField (p : msgPacket) (key : String) (v : Json) : Option msgPacket :=
  if key = "sender" then
    match v with
    | .str s => some { p with sender := s }
    | _ => none
  else if key = "text" then
    match v with
    | .str s => some { p with text := s }
    | _ => none
  else if key = "timestamp" then
    match v with
    | .num n => some { p with timestamp := n }
    | _ => none
  else
    some p

/-- Fold `setField` over the object's fields in order (later duplicate
keys overwrite earlier ones, as in `encoding/json`). -/
def applyFields : msgPacket → List (String × Json) → Option msgPacket
  | p, [] => some p
  | p, (k, v) :: rest =>
    match setField p k v with
    | none => none
    | some q => applyFields q rest

/-- `json.Unmarshal` of a datagram payload into a `msgPacket`: unparseable
bytes and non-object values are errors; an object is decoded field by
field starting from the zero-valued struct. -/
def jsonUnmarshalPacket : Wire → Option msgPacket
  | .broken _ => none
  | .wellFormed (.obj fields) => applyFields ⟨"", "", 0⟩ fields
  | .wellFormed _ => none

/-- `strings.TrimSpace`: remove leading and trailing Unicode whitespace.
Embedded over the character list so that it evaluates. -/
def trimSpace (s : String) : String :=
  String.mk (((s.data.dropWhile Char.isWhitespace).reverse.dropWhile Char.isWhitespace).reverse)

/-- Decimal digit character. -/
def digitChar (n : Nat) : Char := Char.ofNat (48 + n)

/-- Two-digit zero-padded decimal, as Go's `15`, `04`, `05` layout
components render values below 100 (hours, minutes, seconds always are). -/
def pad2 (n : Nat) : String :=
  String.mk [digitChar (n / 10 % 10), digitChar (n % 10)]

/-- `t.Format("15:04:05")` for an instant `t` given in seconds:
`HH:MM:SS`, zero padded, no surrounding brackets. -/
def formatTime (t : Nat) : String :=
  pad2 (t / 3600 % 24) ++ ":" ++ pad2 (t / 60 % 60) ++ ":" ++ pad2 (t % 60)

/-- The lipgloss styles used on transcript lines. Each `Render` only
wraps its argument string (colour/boldness around the content), so each
is a `String -> String`. -/
structure Styles where
  timestampStyle : String → String
  usernameStyle : String → String
  remoteUsernameStyle : String → String
  messageStyle : String → String

/-- Identity styles: expose the raw content that the styled wrappers
carry. -/
def plainStyles : Styles := ⟨id, id, id, id⟩

/-- The local transcript line of `Update`'s `KeyEnter` branch:
`fmt.Sprintf("%s %s: %s", ts, user, msgText)` with `ts` the styled
`15:04:05` timestamp, `user` the styled local username and `msgText`
the styled message text. -/
def formatLocalLine (st : Styles) (now : Nat) (username text : String) : String :=
  st.timestampStyle (formatTime now) ++ " " ++ st.usernameStyle username ++ ": " ++
    st.messageStyle text

/-- The remote transcript line of `Update`'s `udpMsg` branch: same
`"%s %s: %s"` layout, with the remote username style on the decoded
sender. -/
def formatRemoteLine (st : Styles) (p : msgPacket) : String :=
  st.timestampStyle (formatTime p.timestamp) ++ " " ++ st.remoteUsernameStyle p.sender ++ ": " ++
    st.messageStyle p.text

/-- The transcript line as the spec's formatting rule words it:
`[HH:MM:SS] <sender-label>: <text>`, timestamp in square brackets. Stated
from the spec only, to be compared with `formatLocalLine`. -/
def specTranscriptLine (ts : Nat) (sender text : String) : String :=
  "[" ++ formatTime ts ++ "] " ++ sender ++ ": " ++ text

/-- The key types `Update` discriminates on (`tea.KeyMsg`): Ctrl+C, Esc,
Enter, a typed character, or any other key. -/
inductive KeyType where
  | ctrlC
  | esc
  | enter
  | char (c : Char)
  | other
deriving DecidableEq, Repr

/-- The bubbletea messages the program handles: a key event, a received
datagram (`udpMsg` with data and sender address), or a receive error
(`errMsg`, error text abstracted as a string). -/
inductive Msg where
  | key (k : KeyType)
  | udp (data : Wire) (addr : String)
  | errM (e : String)

/-- The commands `Update` can return: `tea.Quit`, the re-armed
`listenForMessages(m.conn)`, the default `tea.Batch(tiCmd, vpCmd)` of
widget-internal commands, or `nil`. -/
inductive Cmd where
  | quit
  | listen
  | widget
  | nil
deriving DecidableEq, Repr

/-- The `model` struct of `main.go`. The viewport is omitted: its content
is always `strings.Join(m.messages, "\n")` plus scroll position, pure
rendering state. The textarea is abstracted to its current value
(`inputValue`); the connection handle to whether one is present. -/
structure model where
  messages : List String
  username : String
  remoteAddr : String
  conn : Bool
  err : Option String
  inputValue : String
deriving DecidableEq, Repr

/-- The Go zero value of `model`, what `return model{err: err}` leaves in
the other fields. -/
def emptyModel : model := ⟨[], "", "", false, none, ""⟩

/-- What `Update` produces, with effects made explicit: the next model,
the datagrams written by `conn.WriteToUDP` during this step (address and
payload), and the returned command. -/
structure UpdateResult where
  next : model
  sent : List (String × Wire)
  cmd : Cmd

/-- `m.textarea.Update(msg)` restricted to the value it holds: a typed
character is appended (up to `CharLimit = 280`); Enter inserts nothing
(`InsertNewline` is disabled) and no other message changes the value. -/
def textareaUpdate (v : String) : Msg → String
  | .key (.char c) => if v.length < 280 then v.push c else v
  | _ => v

/-- The `Update` method of `main.go`, lines 144-200, parameterised by the
styles and the current time (`time.Now()` of the submit branch).
`KeyCtrlC`/`KeyEsc` return `tea.Quit`; `KeyEnter` trims the buffer and,
when non-empty, marshals a `msgPacket`, writes it to the remote address,
appends the local line and resets the textarea (falling through to the
widget command); a `udpMsg` that unmarshals appends the remote line, and
either way re-arms `listenForMessages`; an `errMsg` is stored in `m.err`
with a `nil` command. The send is recorded even when no connection handle
exists (a nil `*net.UDPConn` makes `WriteToUDP` return an error the code
discards). -/
def update (st : Styles) (now : Nat) (m0 : model) (msg : Msg) : UpdateResult :=
  let m : model := { m0 with inputValue := textareaUpdate m0.inputValue msg }
  match msg with
  | .key .ctrlC => ⟨m, [], .quit⟩
  | .key .esc => ⟨m, [], .quit⟩
  | .key .enter =>
    let text := trimSpace m.inputValue
    if text = "" then
      ⟨m, [], .widget⟩
    else
      let packet : msgPacket := ⟨m.username, text, now⟩
      let data := jsonMarshalPacket packet
      let line := formatLocalLine st now m.username text
      ⟨{ m with messages := m.messages ++ [line], inputValue := "" },
        [(m.remoteAddr, data)], .widget⟩
  | .key (.char _) => ⟨m, [], .widget⟩
  | .key .other => ⟨m, [], .widget⟩
  | .udp data _ =>
    match jsonUnmarshalPacket data with
    | some packet =>
      ⟨{ m with messages := m.messages ++ [formatRemoteLine st packet] }, [], .listen⟩
    | none => ⟨m, [], .listen⟩
  | .errM e => ⟨{ m with err := some e }, [], .nil⟩

/-- The model after one `Update` step, effects discarded. -/
def stepModel (st : Styles) (now : Nat) (m : model) (msg : Msg) : model :=
  (update st now m msg).next

/-- The model after a whole sequence of events, processed strictly in
order as the single-threaded update cycle does. -/
def processAll (st : Styles) (now : Nat) (m : model) (msgs : List Msg) : model :=
  msgs.foldl (stepModel st now) m

/-- `initialModel` of `main.go`, lines 85-120, parameterised by the two
network operations it performs: `net.ResolveUDPAddr` (host string to
resolved address string, or an error) and `net.ListenUDP` on the fixed
port (a socket, abstracted to success, or an error). On either failure it
returns `model{err: err}` — the zero model with only the error set — and
on success the populated model with an open connection and no error. -/
def initialModel (username remoteAddr : String)
    (resolveUDPAddr : String → Except String String)
    (listenUDP : Nat → Except String Unit) : model :=
  match resolveUDPAddr (remoteAddr ++ ":" ++ toString port) with
  | .error e => { emptyModel with err := some e }
  | .ok addr =>
    match listenUDP port with
    | .error e => { emptyModel with err := some e }
    | .ok _ =>
      { messages := [], username := username, remoteAddr := addr,
        conn := true, err := none, inputValue := "" }

/-- The exit code of `main`, lines 248-267: `os.Exit(1)` when fewer than
two arguments follow the program name, `os.Exit(1)` when `p.Run` returns
an error, and otherwise `main` returns normally, exiting 0. Whether `Run`
errors is independent of the model's `err` field (bubbletea fails only on
terminal I/O problems), so it is a parameter. -/
def mainExitCode (argc : Nat) (runErr : Bool) : Nat :=
  if argc < 3 then 1 else if runErr then 1 else 0

/-- The `View` method's error branch, lines 202-205: when `m.err` is set,
the whole frame is `fmt.Sprintf("Error: %v\n", m.err)`. The normal-state
frame is the out-of-scope renderer boundary, passed in as `renderUI`. -/
def view (renderUI : model → String) (m : model) : String :=
  match m.err with
  | some e => "Error: " ++ e ++ "\n"
  | none => renderUI m

/-- The outcome of a terminated program run: final model, all datagrams
sent, whether the transport handle was released, and the process exit
code. -/
structure RunOutcome where
  final : model
  sentAll : List (String × Wire)
  handleReleased : Bool
  exitCode : Nat

/-- Modelled from the spec: the event-loop driver (`tea.Program.Run` of
the external bubbletea library, not part of this repository) and process
teardown. Per spec §5, events are consumed strictly one at a time in
arrival order; a quit request "immediately stops accepting new events",
remaining queued events are ignored, the socket handle is released at
shutdown, and per §6 a normal quit exits with code 0. `none` means the
queue was exhausted without terminating (the program is still running). -/
def runProgram (st : Styles) (now : Nat) : model → List Msg → Option RunOutcome
  | _, [] => none
  | m, msg :: rest =>
    let r := update st now m msg
    if r.cmd = .quit then
      some ⟨r.next, r.sent, true, 0⟩
    else
      match runProgram st now r.next rest with
      | none => none
      | some o => some { o with sentAll := r.sent ++ o.sentAll }

/-- A well-formed inbound payload carrying no `text` member: `{"sender":
"bob"}`. `json.Unmarshal` accepts it, leaving `Text` at its zero value,
the empty string. -/
def emptyTextWire : Wire := .wellFormed (.obj [("sender", .str "bob")])

/-- Unmarshalling the marshalled form of a packet recovers the packet:
the three tagged fields are written in a fixed order and read back one by
one. Shared helper for the codec claims. -/
theorem marshal_roundTrip (p : msgPacket) :
    jsonUnmarshalPacket (jsonMarshalPacket p) = some p := rfl

/-- C4: for every `msgPacket` (sender, text, timestamp), decoding the
bytes produced by `json.Marshal` with `json.Unmarshal` yields the same
packet: the codec satisfies the round-trip law. -/
theorem C4_decode_encode_roundTrip (p : msgPacket) :
    jsonUnmarshalPacket (jsonMarshalPacket p) = some p :=
  marshal_roundTrip p

/-- C3: when the trimmed input buffer is non-empty, a submit (`KeyEnter`)
produces exactly one outbound datagram, whose decoded payload has `text`
equal to the trimmed input and `sender` equal to the configured username;
one local line is appended to the transcript and the buffer is cleared. -/
theorem C3_submit_sends_once (st : Styles) (now : Nat) (m : model)
    (h : trimSpace m.inputValue ≠ "") :
    (update st now m (.key .enter)).sent
        = [(m.remoteAddr, jsonMarshalPacket ⟨m.username, trimSpace m.inputValue, now⟩)]
      ∧ jsonUnmarshalPacket (jsonMarshalPacket ⟨m.username, trimSpace m.inputValue, now⟩)
        = some ⟨m.username, trimSpace m.inputValue, now⟩
      ∧ (update st now m (.key .enter)).next.messages
        = m.messages ++ [formatLocalLine st now m.username (trimSpace m.inputValue)]
      ∧ (update st now m (.key .enter)).next.inputValue = "" := by
  refine ⟨?_, marshal_roundTrip _, ?_, ?_⟩ <;>
    simp [update, textareaUpdate, h]

/-- Concrete instance of `C3_submit_sends_once`: username `alice`,
buffer `" hello "` (trimming to `hello`), time 5 seconds. -/
def mC3 : model :=
  { emptyModel with
    username := "alice"
    remoteAddr := "100.64.0.2:9999"
    conn := true
    inputValue := " hello " }

/-- Witness for C3 at a concrete model. -/
theorem C3_submit_sends_once_witness :
    (update plainStyles 5 mC3 (.key .enter)).sent
        = [(mC3.remoteAddr, jsonMarshalPacket ⟨mC3.username, trimSpace mC3.inputValue, 5⟩)]
      ∧ jsonUnmarshalPacket (jsonMarshalPacket ⟨mC3.username, trimSpace mC3.inputValue, 5⟩)
        = some ⟨mC3.username, trimSpace mC3.inputValue, 5⟩
      ∧ (update plainStyles 5 mC3 (.key .enter)).next.messages
        = mC3.messages ++ [formatLocalLine plainStyles 5 mC3.username (trimSpace mC3.inputValue)]
      ∧ (update plainStyles 5 mC3 (.key .enter)).next.inputValue = "" :=
  C3_submit_sends_once plainStyles 5 mC3 (by decide)

/-- C5: a received datagram whose payload fails to unmarshal is handled
totally (`update` is a total function, no unhandled error), appends
nothing, leaves the model exactly unchanged, sends nothing, and returns
the re-armed `listenForMessages` command. -/
theorem C5_malformed_dropped (st : Styles) (now : Nat) (m : model)
    (data : Wire) (addr : String) (h : jsonUnmarshalPacket data = none) :
    update st now m (.udp data addr) = ⟨m, [], .listen⟩ := by
  simp [update, textareaUpdate, h]

/-- Witness for C5 at a concrete malformed payload. -/
theorem C5_malformed_dropped_witness :
    update plainStyles 7 emptyModel (.udp (.broken "not json at all") "198.51.100.7")
      = ⟨emptyModel, [], .listen⟩ :=
  C5_malformed_dropped plainStyles 7 emptyModel (.broken "not json at all") "198.51.100.7" rfl

/-- C7: a receive failure after startup (`errMsg`) records the error in
the model's `err` field, changes nothing else, sends nothing, and returns
the `nil` command — not `listenForMessages` (listening stops) and not
`tea.Quit` (the session keeps running). -/
theorem C7_recv_error_degrades (st : Styles) (now : Nat) (m : model) (e : String) :
    update st now m (.errM e) = ⟨{ m with err := some e }, [], .nil⟩
      ∧ Cmd.nil ≠ Cmd.listen ∧ Cmd.nil ≠ Cmd.quit :=
  ⟨rfl, by decide, by decide⟩

/-- C2 counterexample: at 12:34:56 (45296 seconds), user `alice`, text
`hello`, the line the code builds (styles stripped to their content) is
`12:34:56 alice: hello` — not the spec's `[12:34:56] alice: hello`: the
timestamp is not wrapped in square brackets. -/
theorem C2_counterexample :
    formatLocalLine plainStyles 45296 "alice" "hello" = "12:34:56 alice: hello"
      ∧ formatLocalLine plainStyles 45296 "alice" "hello"
        ≠ specTranscriptLine 45296 "alice" "hello" := by
  exact ⟨rfl, by decide⟩

/-- C2 (amended): every transcript line, local or remote, is
`HH:MM:SS <sender-label>: <text>` — styled timestamp, space, styled
sender label, colon, space, styled text, with no brackets around the
timestamp. Content formatting is identical for both origins: only the
sender-label style differs (equal styles give equal lines), and the
timestamp is always the 8-character `HH:MM:SS`. -/
theorem C2_line_format (st : Styles) (ts : Nat) (sender text : String) :
    formatLocalLine st ts sender text
        = st.timestampStyle (formatTime ts) ++ " " ++ st.usernameStyle sender ++ ": " ++
            st.messageStyle text
      ∧ formatRemoteLine st ⟨sender, text, ts⟩
        = st.timestampStyle (formatTime ts) ++ " " ++ st.remoteUsernameStyle sender ++ ": " ++
            st.messageStyle text
      ∧ (st.usernameStyle = st.remoteUsernameStyle →
          formatLocalLine st ts sender text = formatRemoteLine st ⟨sender, text, ts⟩)
      ∧ formatLocalLine plainStyles ts sender text = formatTime ts ++ " " ++ sender ++ ": " ++ text
      ∧ (formatTime ts).length = 8 := by
  refine ⟨rfl, rfl, ?_, rfl, ?_⟩
  · intro h
    simp [formatLocalLine, formatRemoteLine, h]
  · simp [formatTime, pad2, String.length_append]
    decide

/-- Witness for C2's amended statement: with identical sender styles the
local and remote lines coincide. -/
theorem C2_line_format_witness :
    formatLocalLine plainStyles 45296 "alice" "hello"
      = formatRemoteLine plainStyles ⟨"alice", "hello", 45296⟩ :=
  (C2_line_format plainStyles 45296 "alice" "hello").2.2.1 rfl

/-- C6: Esc (and Ctrl+C) in a running model returns `tea.Quit`; under the
spec-modelled driver the run terminates (a `RunOutcome` exists — the
`Terminating` state) with the handle released and exit code 0, no
datagram is sent by the quit step, the final model is unchanged, any
further queued events are ignored (the outcome is that of the queue
stopping at the quit), and `main` exits 0 when the run reports no
error. -/
theorem C6_quit_terminates (st : Styles) (now : Nat) (m : model) (queued : List Msg) :
    (update st now m (.key .esc)).cmd = .quit
      ∧ (update st now m (.key .ctrlC)).cmd = .quit
      ∧ runProgram st now m (.key .esc :: queued) = some ⟨m, [], true, 0⟩
      ∧ runProgram st now m (.key .esc :: queued) = runProgram st now m [.key .esc]
      ∧ mainExitCode 3 false = 0 :=
  ⟨rfl, rfl, rfl, rfl, rfl⟩

/-- One `Update` step only ever appends to `m.messages`. Shared helper
for the append-only claims. -/
theorem step_messages_append (st : Styles) (now : Nat) (m : model) (msg : Msg) :
    ∃ t, (stepModel st now m msg).messages = m.messages ++ t := by
  cases msg with
  | key k =>
    cases k with
    | ctrlC => exact ⟨[], by simp [stepModel, update, textareaUpdate]⟩
    | esc => exact ⟨[], by simp [stepModel, update, textareaUpdate]⟩
    | enter =>
      by_cases h : trimSpace m.inputValue = ""
      · exact ⟨[], by simp [stepModel, update, textareaUpdate, h]⟩
      · exact ⟨[formatLocalLine st now m.username (trimSpace m.inputValue)],
          by simp [stepModel, update, textareaUpdate, h]⟩
    | char c => exact ⟨[], by simp [stepModel, update, textareaUpdate]⟩
    | other => exact ⟨[], by simp [stepModel, update, textareaUpdate]⟩
  | udp data addr =>
    cases hdec : jsonUnmarshalPacket data with
    | none => exact ⟨[], by simp [stepModel, update, textareaUpdate, hdec]⟩
    | some p => exact ⟨[formatRemoteLine st p], by simp [stepModel, update, textareaUpdate, hdec]⟩
  | errM e => exact ⟨[], by simp [stepModel, update, textareaUpdate]⟩

/-- C8: across every sequence of events, the transcript after processing
is the transcript before plus a (possibly empty) appended suffix — no
deletion, no reordering, no mutation of prior lines — and its length is
monotonically non-decreasing. -/
theorem C8_transcript_append_only (st : Styles) (now : Nat) (m : model) (msgs : List Msg) :
    (∃ t, (processAll st now m msgs).messages = m.messages ++ t)
      ∧ m.messages.length ≤ (processAll st now m msgs).messages.length := by
  have main : ∃ t, (processAll st now m msgs).messages = m.messages ++ t := by
    induction msgs generalizing m with
    | nil => exact ⟨[], by simp [processAll]⟩
    | cons msg rest ih =>
      obtain ⟨s, hs⟩ := step_messages_append st now m msg
      obtain ⟨t, ht⟩ := ih (stepModel st now m msg)
      refine ⟨s ++ t, ?_⟩
      have hfold : processAll st now m (msg :: rest)
          = processAll st now (stepModel st now m msg) rest := rfl
      rw [hfold, ht, hs, List.append_assoc]
  refine ⟨main, ?_⟩
  obtain ⟨t, ht⟩ := main
  rw [ht]
  simp

/-- C9 counterexample: the inbound payload `{"sender":"bob"}` decodes
successfully to a packet whose `text` is the empty string (the Go zero
value — `json.Unmarshal` validates nothing), and processing it appends a
transcript line originating from that empty-text message. -/
theorem C9_counterexample :
    jsonUnmarshalPacket emptyTextWire = some ⟨"bob", "", 0⟩
      ∧ (update plainStyles 0 emptyModel (.udp emptyTextWire "203.0.113.9")).next.messages
        = ["00:00:00 bob: "] :=
  ⟨rfl, rfl⟩

/-- C9 (amended): messages constructed at send time always have
non-empty `text` (the trimmed buffer, sent only when non-empty) and carry
the configured username; decode-time messages get no such validation
(see the counterexample). Every datagram this program ever sends decodes
to a packet with non-empty text and the local username as sender. -/
theorem C9_sent_text_nonempty (st : Styles) (now : Nat) (m : model) (msg : Msg)
    (addr : String) (b : Wire) (h : (addr, b) ∈ (update st now m msg).sent) :
    ∃ p, jsonUnmarshalPacket b = some p ∧ p.text ≠ "" ∧ p.sender = m.username := by
  cases msg with
  | key k =>
    cases k with
    | ctrlC => simp [update, textareaUpdate] at h
    | esc => simp [update, textareaUpdate] at h
    | enter =>
      by_cases h0 : trimSpace m.inputValue = ""
      · simp [update, textareaUpdate, h0] at h
      · simp [update, textareaUpdate, h0] at h
        refine ⟨⟨m.username, trimSpace m.inputValue, now⟩, ?_, h0, rfl⟩
        rw [h.2]
        exact marshal_roundTrip _
    | char c => simp [update, textareaUpdate] at h
    | other => simp [update, textareaUpdate] at h
  | udp data a =>
    cases hdec : jsonUnmarshalPacket data with
    | none => simp [update, textareaUpdate, hdec] at h
    | some p => simp [update, textareaUpdate, hdec] at h
  | errM e => simp [update, textareaUpdate] at h

/-- Concrete model for the C9 witness: username `alice`, buffer `hi`. -/
def mC9 : model :=
  { emptyModel with
    username := "alice"
    remoteAddr := "100.64.0.2:9999"
    conn := true
    inputValue := "hi" }

/-- Witness for C9's amended statement: the one datagram sent when
submitting `hi` decodes to a packet with non-empty text and sender
`alice`. -/
theorem C9_sent_text_nonempty_witness :
    ∃ p, jsonUnmarshalPacket (jsonMarshalPacket ⟨mC9.username, trimSpace mC9.inputValue, 3⟩)
        = some p ∧ p.text ≠ "" ∧ p.sender = mC9.username :=
  C9_sent_text_nonempty plainStyles 3 mC9 (.key .enter) mC9.remoteAddr
    (jsonMarshalPacket ⟨mC9.username, trimSpace mC9.inputValue, 3⟩)
    (List.Mem.head _)

/-- C10: the sender address attached to a received datagram is never
inspected — the update is identical for any two source addresses — and a
successfully decoding payload appends a remote line whatever host it came
from, re-arming the receive. -/
theorem C10_any_sender_accepted (st : Styles) (now : Nat) (m : model) (data : Wire)
    (a1 a2 : String) :
    update st now m (.udp data a1) = update st now m (.udp data a2)
      ∧ ∀ p, jsonUnmarshalPacket data = some p →
          (update st now m (.udp data a1)).next.messages
              = m.messages ++ [formatRemoteLine st p]
            ∧ (update st now m (.udp data a1)).cmd = .listen := by
  refine ⟨rfl, ?_⟩
  intro p hp
  exact ⟨by simp [update, textareaUpdate, hp], by simp [update, textareaUpdate, hp]⟩

/-- Packet for the C10 witness: sent by a third party, not the peer. -/
def pC10 : msgPacket := ⟨"mallory", "hi from anywhere", 61⟩

/-- Witness for C10: a well-formed datagram from `198.18.0.1` (not the
configured peer) is appended to the transcript and the receive re-arms. -/
theorem C10_any_sender_accepted_witness :
    (update plainStyles 61 mC3 (.udp (jsonMarshalPacket pC10) "198.18.0.1")).next.messages
        = mC3.messages ++ [formatRemoteLine plainStyles pC10]
      ∧ (update plainStyles 61 mC3 (.udp (jsonMarshalPacket pC10) "198.18.0.1")).cmd
        = .listen :=
  (C10_any_sender_accepted plainStyles 61 mC3 (jsonMarshalPacket pC10) "198.18.0.1"
    "203.0.113.1").2 pC10 (marshal_roundTrip pC10)

/-- C1 counterexample: with valid arguments, a successful resolve and a
failing bind, `initialModel` returns a model carrying the error (no
connection) instead of aborting; the program still runs, and since a
bubbletea run that starts normally reports no error, `main` exits 0, not
1 — the claimed fail-fast exit(1) on bind failure does not happen. -/
theorem C1_counterexample :
    (initialModel "alice" "100.64.0.2" (fun s => .ok s)
        (fun _ => .error "listen udp :9999: bind: address already in use")).err
        = some "listen udp :9999: bind: address already in use"
      ∧ (initialModel "alice" "100.64.0.2" (fun s => .ok s)
          (fun _ => .error "listen udp :9999: bind: address already in use")).conn = false
      ∧ mainExitCode 3 false = 0 :=
  ⟨rfl, rfl, rfl⟩

/-- C1 (amended): on resolve failure, or on bind failure after a
successful resolve, `initialModel` returns the zero model with only `err`
set (no connection handle, no retry); the TUI still starts and renders
the frame `Error: <text>`; exit code 1 occurs only for missing arguments
or a failure of the run itself, and a normally-terminating run exits 0. -/
theorem C1_startup_failure_recorded (u ra a e : String)
    (res : String → Except String String) (bnd : Nat → Except String Unit)
    (rUI : model → String) :
    (res (ra ++ ":" ++ toString port) = .error e →
        initialModel u ra res bnd = { emptyModel with err := some e }
          ∧ view rUI (initialModel u ra res bnd) = "Error: " ++ e ++ "\n")
      ∧ (res (ra ++ ":" ++ toString port) = .ok a → bnd port = .error e →
          initialModel u ra res bnd = { emptyModel with err := some e }
            ∧ view rUI (initialModel u ra res bnd) = "Error: " ++ e ++ "\n")
      ∧ mainExitCode 2 false = 1 ∧ mainExitCode 3 false = 0 ∧ mainExitCode 3 true = 1 := by
  refine ⟨?_, ?_, rfl, rfl, rfl⟩
  · intro h
    constructor
    · simp [initialModel, h]
    · simp [initialModel, h, view]
  · intro h1 h2
    constructor
    · simp [initialModel, h1, h2]
    · simp [initialModel, h1, h2, view]

/-- Witness for C1's amended statement: a concrete failing resolve. -/
theorem C1_startup_failure_recorded_witness :
    initialModel "alice" "badhost" (fun _ => .error "no such host")
        (fun _ => .ok ()) = { emptyModel with err := some "no such host" }
      ∧ view (fun _ => "") (initialModel "alice" "badhost" (fun _ => .error "no such host")
          (fun _ => .ok ())) = "Error: " ++ "no such host" ++ "\n" :=
  (C1_startup_failure_recorded "alice" "badhost" "" "no such host"
    (fun _ => .error "no such host") (fun _ => .ok ()) (fun _ => "")).1 rfl

end Neonwire
